import Mathlib

/-!
Shallow embedding of the span admission and enrichment policy implemented in
src/packages/node-experimental/src/integrations/http.ts (the Http class).
Scalar OpenTelemetry attribute values are modelled by an inductive type,
attribute maps and the data and tag stores of a Sentry span by association
lists, and the class methods by pure functions.  Mutable state of the Http
instance is a record threaded through the methods explicitly; each method
returns the (possibly updated) instance state together with its visible
effect.
-/

set_option autoImplicit false

/-- Scalar attribute value as it occurs in the OpenTelemetry attribute map:
a string, a number, or a boolean. -/
inductive AttrValue where
  | str (s : String)
  | int (n : Int)
  | bool (b : Bool)
deriving DecidableEq, Repr

/-- JavaScript truthiness of an attribute value: the empty string, the number
zero and false are falsy, every other scalar is truthy. -/
def truthy : AttrValue → Bool
  | AttrValue.str s => s != ""
  | AttrValue.int n => n != 0
  | AttrValue.bool b => b

/-- The attribute map of a span, keyed by attribute name. -/
def Attributes : Type := List (String × AttrValue)

/-- Reading a key from an attribute map or from the data and tag stores of a
Sentry span: the first binding of the key, none when absent. -/
def lookupAttr (attributes : List (String × AttrValue)) (key : String) : Option AttrValue :=
  match attributes with
  | [] => none
  | (k, v) :: rest => if k = key then some v else lookupAttr rest key

/-- OpenTelemetry span kind. -/
inductive SpanKind where
  | internal
  | server
  | client
  | producer
  | consumer
deriving DecidableEq, Repr

/-- The attribute key SemanticAttributes.HTTP_URL. -/
def SemanticAttributes.HTTP_URL : String := "http.url"

/-- The attribute key SemanticAttributes.HTTP_STATUS_CODE. -/
def SemanticAttributes.HTTP_STATUS_CODE : String := "http.status_code"

/-- The part of an OpenTelemetry span read by the policy: its kind, its
attribute map and its span id (spanContext().spanId). -/
structure OtelSpan where
  kind : SpanKind
  attributes : List (String × AttrValue)
  spanId : String

/-- The request object (ClientRequest or IncomingMessage); the policy reads
its method (for the incoming ignore hook) and otherwise stores it opaquely. -/
structure HttpRequest where
  method : Option String
deriving DecidableEq, Repr

/-- The response object; the policy reads its status code. -/
structure HttpResponse where
  statusCode : Nat
deriving DecidableEq, Repr

/-- The Sentry span counterpart looked up through _INTERNAL_getSentrySpan:
its origin marker, whether it is a Transaction, its request metadata, and its
tag and data stores. -/
structure SentrySpan where
  origin : Option String
  isTransaction : Bool
  metadata : Option HttpRequest
  tags : List (String × AttrValue)
  data : List (String × AttrValue)
deriving DecidableEq, Repr

/-- Writing one key of the data or tag store of a Sentry span (setData and
setTag): replace the first binding of the key, or append a new binding. -/
def setKey (store : List (String × AttrValue)) (key : String) (value : AttrValue) :
    List (String × AttrValue) :=
  match store with
  | [] => [(key, value)]
  | (k, v) :: rest => if k = key then (key, value) :: rest else (k, v) :: setKey rest key value

/-- Helper projection: read a key of the data store of an optional Sentry
span. -/
def spanDataLookup (s : Option SentrySpan) (key : String) : Option AttrValue :=
  match s with
  | some sp => lookupAttr sp.data key
  | none => none

/-- Helper projection: read a key of the tag store of an optional Sentry
span. -/
def spanTagLookup (s : Option SentrySpan) (key : String) : Option AttrValue :=
  match s with
  | some sp => lookupAttr sp.tags key
  | none => none

/-- getHttpUrl from http.ts: the HTTP_URL attribute when it is present and is
a string, none otherwise. -/
def getHttpUrl (attributes : List (String × AttrValue)) : Option String :=
  match lookupAttr attributes SemanticAttributes.HTTP_URL with
  | some (AttrValue.str url) => some url
  | _ => none

/-- The request record derived from a span (url, and the query and fragment
substrings of the url, each kept with its leading delimiter). -/
structure RequestSpanData where
  url : String
  query : Option String
  fragment : Option String
deriving DecidableEq, Repr

/-- Splits a character list at the first occurrence of the character c: the
part before it and the part from c on (c included); none when c is absent. -/
def breakAt (c : Char) : List Char → Option (List Char × List Char)
  | [] => none
  | x :: xs =>
    if x = c then some ([], x :: xs)
    else
      match breakAt c xs with
      | some (pre, suf) => some (x :: pre, suf)
      | none => none

/-- Modelled from the spec: the request-record derivation getRequestSpanData
(src/packages/node-experimental/src/utils/getRequestSpanData.ts is not under
src/).  Per the spec it returns a mapping with at minimum a url field, and
http.query and http.fragment string fields each including their leading
delimiter character if present, absent entirely if the original URL had
none. -/
def getRequestSpanData (attributes : List (String × AttrValue)) : RequestSpanData :=
  let url := match getHttpUrl attributes with
    | some u => u
    | none => ""
  let chars := url.toList
  let split := match breakAt '#' chars with
    | some (pre, suf) => (pre, some (String.mk suf))
    | none => (chars, none)
  let query := match breakAt '?' split.1 with
    | some (_, suf) => some (String.mk suf)
    | none => none
  { url := url, query := query, fragment := split.2 }

/-- The tracing option of HttpOptions: a boolean or a TracingOptions object
(carrying an optional shouldCreateSpanForRequest predicate). -/
inductive TracingSetting where
  | asBool (b : Bool)
  | asObject (shouldCreateSpanForRequest : Option (String → Bool))

/-- HttpOptions from http.ts: optional breadcrumbs flag and optional tracing
setting. -/
structure HttpOptions where
  breadcrumbs : Option Bool
  tracing : Option TracingSetting

/-- The mutable fields of the Http class instance that the policy reads and
writes. -/
structure HttpState where
  _breadcrumbs : Bool
  _tracing : Option Bool
  _shouldCreateSpans : Bool
  _shouldCreateSpanForRequest : Option (String → Bool)

/-- The Http class constructor: breadcrumbs defaults to true, _tracing is
undefined when the option is undefined and otherwise the truthiness of the
option (an object is truthy), and the predicate is taken from the option only
when the option is a (truthy) object. -/
def Http.construct (options : HttpOptions) : HttpState :=
  { _breadcrumbs :=
      match options.breadcrumbs with
      | none => true
      | some b => b,
    _tracing :=
      match options.tracing with
      | none => none
      | some (TracingSetting.asBool b) => some b
      | some (TracingSetting.asObject _) => some true,
    _shouldCreateSpans := false,
    _shouldCreateSpanForRequest :=
      match options.tracing with
      | some (TracingSetting.asObject p) => p
      | _ => none }

/-- setupOnce from http.ts, restricted to the state it computes: early return
when breadcrumbs are off and tracing is exactly false; otherwise resolve
_shouldCreateSpans (from the ambient hasTracingEnabled check only when
_tracing is undefined) and fall back to the client option
shouldCreateSpanForRequest when no predicate was configured. -/
def setupOnce (st : HttpState) (hasTracingEnabled : Bool)
    (clientShouldCreateSpanForRequest : Option (String → Bool)) : HttpState :=
  if st._breadcrumbs = false ∧ st._tracing = some false then st
  else
    let st1 : HttpState :=
      { st with
        _shouldCreateSpans :=
          match st._tracing with
          | none => hasTracingEnabled
          | some b => b }
    { st1 with
      _shouldCreateSpanForRequest :=
        match st1._shouldCreateSpanForRequest with
        | some p => some p
        | none => clientShouldCreateSpanForRequest }

/-- _onSpanEnd from http.ts: drop the span when spans are not to be created;
otherwise, when a predicate is configured and the extracted url is truthy and
the predicate rejects it, drop the span; otherwise leave the mutable drop
flag as it was.  The returned pair is the instance state after the call and
the final value of mutableOptions.drop. -/
def _onSpanEnd (st : HttpState) (otelSpan : OtelSpan) (drop : Bool) : HttpState × Bool :=
  if st._shouldCreateSpans = false then (st, true)
  else
    match st._shouldCreateSpanForRequest with
    | some shouldCreateSpanForRequest =>
      match getHttpUrl otelSpan.attributes with
      | some url =>
        if url ≠ "" ∧ shouldCreateSpanForRequest url = false then (st, true) else (st, drop)
      | none => (st, drop)
    | none => (st, drop)

/-- _updateSentrySpan from http.ts.  The Sentry-span lookup
_INTERNAL_getSentrySpan is passed in as a function from span ids; the result
is the instance state after the call together with the updated Sentry span
(none when the lookup found nothing, in which case nothing is written). -/
def _updateSentrySpan (st : HttpState) (lookup : String → Option SentrySpan)
    (span : OtelSpan) (request : HttpRequest) : HttpState × Option SentrySpan :=
  let data := getRequestSpanData span.attributes
  let attributes := span.attributes
  match lookup span.spanId with
  | none => (st, none)
  | some found =>
    let sentrySpan := { found with origin := some "auto.http.otel.http" }
    let additionalData : List (String × AttrValue) := [("url", AttrValue.str data.url)]
    let sentrySpan :=
      if sentrySpan.isTransaction = true ∧ span.kind = SpanKind.server then
        { sentrySpan with metadata := some request }
      else sentrySpan
    let step :=
      match lookupAttr attributes SemanticAttributes.HTTP_STATUS_CODE with
      | some statusCode =>
        if truthy statusCode = true then
          ({ sentrySpan with tags := setKey sentrySpan.tags "http.status_code" statusCode },
            additionalData ++ [("http.response.status_code", statusCode)])
        else (sentrySpan, additionalData)
      | none => (sentrySpan, additionalData)
    let sentrySpan := step.1
    let additionalData := step.2
    let additionalData :=
      match data.query with
      | some q =>
        if truthy (AttrValue.str q) = true then
          additionalData ++ [("http.query", AttrValue.str (String.drop q 1))]
        else additionalData
      | none => additionalData
    let additionalData :=
      match data.fragment with
      | some f =>
        if truthy (AttrValue.str f) = true then
          additionalData ++ [("http.fragment", AttrValue.str (String.drop f 1))]
        else additionalData
      | none => additionalData
    let sentrySpan :=
      { sentrySpan with
        data := additionalData.foldl (fun d kv => setKey d kv.1 kv.2) sentrySpan.data }
    (st, some sentrySpan)

/-- A breadcrumb data record as assembled by _addRequestBreadcrumb: the
status code of the response spread together with the fields of the request
record. -/
structure BreadcrumbData where
  status_code : Nat
  url : String
  query : Option String
  fragment : Option String
deriving DecidableEq, Repr

/-- A breadcrumb as handed to addBreadcrumb. -/
structure Breadcrumb where
  category : String
  type : String
  data : BreadcrumbData
deriving DecidableEq, Repr

/-- _addRequestBreadcrumb from http.ts: no-op unless breadcrumbs are on and
the span kind is CLIENT; otherwise emit one breadcrumb of category http and
type http whose data is the response status code together with the request
record.  The returned pair is the instance state after the call and the
emitted breadcrumb, if any. -/
def _addRequestBreadcrumb (st : HttpState) (span : OtelSpan) (response : HttpResponse) :
    HttpState × Option Breadcrumb :=
  if st._breadcrumbs = false ∨ span.kind ≠ SpanKind.client then (st, none)
  else
    let data := getRequestSpanData span.attributes
    (st,
      some
        { category := "http",
          type := "http",
          data :=
            { status_code := response.statusCode,
              url := data.url,
              query := data.query,
              fragment := data.fragment } })

/-- JavaScript toUpperCase on an ASCII method name, written over the
character list of the string. -/
def strToUpper (s : String) : String := String.mk (s.data.map Char.toUpper)

/-- ignoreIncomingRequestHook from setupOnce: true exactly for requests whose
method, uppercased, is OPTIONS or HEAD. -/
def ignoreIncomingRequestHook (request : HttpRequest) : Bool :=
  match request.method with
  | some m =>
    let method := strToUpper m
    if method = "OPTIONS" ∨ method = "HEAD" then true else false
  | none => false

/-- ignoreOutgoingRequestHook from setupOnce.  Modelled from the spec: the
url extraction getRequestUrl (src/packages/node-experimental/src/utils/
getRequestUrl.ts is not under src/) is passed in as its optional result, and
isSentryRequestUrl (the check against the monitoring reporting endpoint,
external) as a predicate.  The hook returns the predicate on a truthy url and
false otherwise. -/
def ignoreOutgoingRequestHook (isSentryRequestUrl : String → Bool)
    (url : Option String) : Bool :=
  match url with
  | some u => if u != "" then isSentryRequestUrl u else false
  | none => false

/-! ### Helper lemmas about the key-value stores -/

theorem lookupAttr_setKey (l : List (String × AttrValue)) (k : String) (v : AttrValue)
    (k2 : String) :
    lookupAttr (setKey l k v) k2 = if k = k2 then some v else lookupAttr l k2 := by
  induction l with
  | nil => rfl
  | cons kv rest ih =>
    obtain ⟨k0, v0⟩ := kv
    by_cases h0 : k0 = k <;> by_cases h2 : k0 = k2 <;> by_cases h3 : k = k2 <;>
      simp_all [setKey, lookupAttr, ih]

theorem lookupAttr_foldl_not_mem (adds : List (String × AttrValue))
    (d : List (String × AttrValue)) (k : String)
    (h : ∀ kv ∈ adds, kv.1 ≠ k) :
    lookupAttr (adds.foldl (fun d2 kv => setKey d2 kv.1 kv.2) d) k = lookupAttr d k := by
  induction adds generalizing d with
  | nil => rfl
  | cons kv rest ih =>
    rw [List.foldl_cons, ih _ (fun x hx => h x (List.mem_cons_of_mem _ hx)),
      lookupAttr_setKey, if_neg (h kv (List.mem_cons_self _ _))]

theorem lookupAttr_foldl_last (l1 l2 : List (String × AttrValue))
    (d : List (String × AttrValue)) (k : String) (v : AttrValue)
    (h : ∀ kv ∈ l2, kv.1 ≠ k) :
    lookupAttr ((l1 ++ (k, v) :: l2).foldl (fun d2 kv => setKey d2 kv.1 kv.2) d) k = some v := by
  rw [List.foldl_append, List.foldl_cons, lookupAttr_foldl_not_mem _ _ _ h,
    lookupAttr_setKey, if_pos rfl]

/-- The status-code entry of the additionalData mapping assembled by
_updateSentrySpan: present exactly when the status attribute is present and
truthy. -/
def statusPart (attributes : List (String × AttrValue)) : List (String × AttrValue) :=
  match lookupAttr attributes SemanticAttributes.HTTP_STATUS_CODE with
  | some v => if truthy v = true then [("http.response.status_code", v)] else []
  | none => []

/-- The query entry of the additionalData mapping assembled by
_updateSentrySpan: present exactly when the derived record has a truthy
query, with the first character stripped. -/
def queryPart (attributes : List (String × AttrValue)) : List (String × AttrValue) :=
  match (getRequestSpanData attributes).query with
  | some q =>
    if truthy (AttrValue.str q) = true then
      [("http.query", AttrValue.str (String.drop q 1))]
    else []
  | none => []

/-- The fragment entry of the additionalData mapping assembled by
_updateSentrySpan: present exactly when the derived record has a truthy
fragment, with the first character stripped. -/
def fragmentPart (attributes : List (String × AttrValue)) : List (String × AttrValue) :=
  match (getRequestSpanData attributes).fragment with
  | some f =>
    if truthy (AttrValue.str f) = true then
      [("http.fragment", AttrValue.str (String.drop f 1))]
    else []
  | none => []

/-- The additionalData mapping assembled by _updateSentrySpan, in insertion
order: url first, then the (truthy) status code, the stripped query and the
stripped fragment. -/
def additionalDataList (attributes : List (String × AttrValue)) : List (String × AttrValue) :=
  [("url", AttrValue.str (getRequestSpanData attributes).url)] ++ statusPart attributes
    ++ queryPart attributes ++ fragmentPart attributes

theorem updateSentrySpan_data_char (st : HttpState) (lookup : String → Option SentrySpan)
    (span : OtelSpan) (request : HttpRequest) (found : SentrySpan)
    (h : lookup span.spanId = some found) (k : String) :
    spanDataLookup (_updateSentrySpan st lookup span request).2 k =
      lookupAttr
        ((additionalDataList span.attributes).foldl (fun d2 kv => setKey d2 kv.1 kv.2)
          found.data) k := by
  simp only [_updateSentrySpan, additionalDataList, h, spanDataLookup]
  cases hs : lookupAttr span.attributes SemanticAttributes.HTTP_STATUS_CODE <;>
    cases hq : (getRequestSpanData span.attributes).query <;>
    cases hf : (getRequestSpanData span.attributes).fragment <;>
    simp only [statusPart, queryPart, fragmentPart, hs, hq, hf] <;>
    split_ifs <;>
    simp [List.append_assoc]

theorem updateSentrySpan_tags_char (st : HttpState) (lookup : String → Option SentrySpan)
    (span : OtelSpan) (request : HttpRequest) (found : SentrySpan)
    (h : lookup span.spanId = some found) (k : String) :
    spanTagLookup (_updateSentrySpan st lookup span request).2 k =
      (match lookupAttr span.attributes SemanticAttributes.HTTP_STATUS_CODE with
       | some v =>
         if truthy v = true then lookupAttr (setKey found.tags "http.status_code" v) k
         else lookupAttr found.tags k
       | none => lookupAttr found.tags k) := by
  simp only [_updateSentrySpan, h, spanTagLookup]
  cases hs : lookupAttr span.attributes SemanticAttributes.HTTP_STATUS_CODE with
  | none =>
    cases hq : (getRequestSpanData span.attributes).query <;>
      cases hf : (getRequestSpanData span.attributes).fragment <;>
      split_ifs <;> rfl
  | some v =>
    by_cases hv : truthy v = true <;>
      cases hq : (getRequestSpanData span.attributes).query <;>
      cases hf : (getRequestSpanData span.attributes).fragment <;>
      simp [hv] <;> split_ifs <;> rfl

/-! ### Claim C1 -/

/-- Url filter predicate used in the C1 counterexample: rejects every url. -/
def c1Pred : String → Bool := fun _ => false

/-- Instance state for the C1 counterexample: tracing resolved to enabled and
a filter predicate configured. -/
def c1State : HttpState :=
  { _breadcrumbs := true, _tracing := some true, _shouldCreateSpans := true,
    _shouldCreateSpanForRequest := some c1Pred }

/-- Span for the C1 counterexample: the HTTP url attribute is present but is
the empty string. -/
def c1Span : OtelSpan :=
  { kind := SpanKind.client,
    attributes := [(SemanticAttributes.HTTP_URL, AttrValue.str "")],
    spanId := "a" }

/-- C1 counterexample: tracing is enabled, a filter predicate is configured,
the spans HTTP url attribute is present (as the empty string) and the
predicate returns false for that url, yet _onSpanEnd leaves drop = false —
refuting the claimed if-and-only-if characterisation of drop. -/
theorem c1_empty_url_refutes_iff :
    c1State._shouldCreateSpans = true ∧
    c1State._shouldCreateSpanForRequest = some c1Pred ∧
    getHttpUrl c1Span.attributes = some "" ∧
    c1Pred "" = false ∧
    (_onSpanEnd c1State c1Span false).2 = false :=
  ⟨rfl, rfl, rfl, rfl, by decide⟩

/-- C1 (amended): _onSpanEnd sets drop to true exactly when the resolved
tracing-enabled flag is false, or a filter predicate is configured, the HTTP
url attribute is present as a non-empty string, and the predicate returns
false for it; in every other case (including a present but empty url) drop
remains false. -/
theorem c1_onSpanEnd_drop_iff (st : HttpState) (otelSpan : OtelSpan) :
    (_onSpanEnd st otelSpan false).2 = true ↔
      (st._shouldCreateSpans = false ∨
        ∃ p url, st._shouldCreateSpanForRequest = some p ∧
          getHttpUrl otelSpan.attributes = some url ∧ url ≠ "" ∧ p url = false) := by
  unfold _onSpanEnd
  by_cases h : st._shouldCreateSpans = false
  · simp [h]
  · rw [if_neg h]
    cases hp : st._shouldCreateSpanForRequest with
    | none => simp [h, hp]
    | some p =>
      cases hu : getHttpUrl otelSpan.attributes with
      | none => simp [h, hp, hu]
      | some url =>
        by_cases hc : url ≠ "" ∧ p url = false
        · simp [h, hp, hu, hc]
        · simp [h, hp, hu, hc]

/-! ### Claim C9 -/

/-- C9: when the HTTP url attribute is present but is the empty string,
_onSpanEnd with tracing enabled and a filter predicate configured leaves
drop = false, and the outcome does not depend on the predicate at all (the
predicate is never consulted): replacing it by any other predicate gives the
same result. -/
theorem c9_empty_url_keeps_span (st : HttpState) (p : String → Bool) (otelSpan : OtelSpan)
    (h1 : st._shouldCreateSpans = true)
    (h2 : st._shouldCreateSpanForRequest = some p)
    (h3 : getHttpUrl otelSpan.attributes = some "") :
    (_onSpanEnd st otelSpan false).2 = false ∧
    (∀ q : String → Bool,
      (_onSpanEnd { st with _shouldCreateSpanForRequest := some q } otelSpan false).2 = false) := by
  constructor
  · unfold _onSpanEnd
    rw [if_neg (by simp [h1])]
    simp [h2, h3]
  · intro q
    unfold _onSpanEnd
    rw [if_neg (by simp [h1])]
    simp [h3]

/-- Predicate used in the C9 witness: rejects every url. -/
def c9Pred : String → Bool := fun _ => false

/-- Instance state for the C9 witness. -/
def c9State : HttpState :=
  { _breadcrumbs := true, _tracing := some true, _shouldCreateSpans := true,
    _shouldCreateSpanForRequest := some c9Pred }

/-- Span for the C9 witness, with an empty HTTP url attribute. -/
def c9Span : OtelSpan :=
  { kind := SpanKind.client,
    attributes := [(SemanticAttributes.HTTP_URL, AttrValue.str "")],
    spanId := "e" }

/-- Witness for C9 at a concrete state, predicate and span. -/
theorem c9_empty_url_keeps_span_witness :
    (_onSpanEnd c9State c9Span false).2 = false ∧
    (_onSpanEnd { c9State with _shouldCreateSpanForRequest := some (fun _ => true) }
        c9Span false).2 = false :=
  ⟨(c9_empty_url_keeps_span c9State c9Pred c9Span rfl rfl rfl).1,
    (c9_empty_url_keeps_span c9State c9Pred c9Span rfl rfl rfl).2 (fun _ => true)⟩

/-! ### Claim C3 -/

/-- C3: _addRequestBreadcrumb emits nothing when breadcrumbs are disabled or
the span kind is not CLIENT, and for a CLIENT span with breadcrumbs enabled
emits exactly one breadcrumb of category http and type http whose data
carries the response status code (together with the request record). -/
theorem c3_breadcrumb_policy (st : HttpState) (span : OtelSpan) (response : HttpResponse) :
    ((st._breadcrumbs = false ∨ span.kind ≠ SpanKind.client) →
      (_addRequestBreadcrumb st span response).2 = none) ∧
    (st._breadcrumbs = true → span.kind = SpanKind.client →
      (_addRequestBreadcrumb st span response).2 =
        some { category := "http", type := "http",
               data := { status_code := response.statusCode,
                         url := (getRequestSpanData span.attributes).url,
                         query := (getRequestSpanData span.attributes).query,
                         fragment := (getRequestSpanData span.attributes).fragment } }) := by
  constructor
  · intro h
    unfold _addRequestBreadcrumb
    rw [if_pos h]
  · intro h1 h2
    unfold _addRequestBreadcrumb
    rw [if_neg (by simp [h1, h2])]

/-- State with breadcrumbs enabled, for the C3 witness. -/
def c3OnState : HttpState :=
  { _breadcrumbs := true, _tracing := none, _shouldCreateSpans := false,
    _shouldCreateSpanForRequest := none }

/-- State with breadcrumbs disabled, for the C3 witness. -/
def c3OffState : HttpState :=
  { _breadcrumbs := false, _tracing := none, _shouldCreateSpans := false,
    _shouldCreateSpanForRequest := none }

/-- A SERVER span for the C3 witness. -/
def c3ServerSpan : OtelSpan :=
  { kind := SpanKind.server,
    attributes := [(SemanticAttributes.HTTP_URL, AttrValue.str "http://h/p")],
    spanId := "c" }

/-- A CLIENT span for the C3 witness. -/
def c3ClientSpan : OtelSpan :=
  { kind := SpanKind.client,
    attributes := [(SemanticAttributes.HTTP_URL, AttrValue.str "http://h/p")],
    spanId := "d" }

/-- Witness for C3: a SERVER span with breadcrumbs enabled yields no
breadcrumb, breadcrumbs disabled yields none, and a CLIENT span with
breadcrumbs enabled yields the one expected breadcrumb. -/
theorem c3_breadcrumb_policy_witness :
    (_addRequestBreadcrumb c3OnState c3ServerSpan { statusCode := 500 }).2 = none ∧
    (_addRequestBreadcrumb c3OffState c3ClientSpan { statusCode := 200 }).2 = none ∧
    (_addRequestBreadcrumb c3OnState c3ClientSpan { statusCode := 200 }).2 =
      some { category := "http", type := "http",
             data := { status_code := 200, url := "http://h/p",
                       query := none, fragment := none } } := by
  refine ⟨?_, ?_, ?_⟩
  · exact (c3_breadcrumb_policy c3OnState c3ServerSpan { statusCode := 500 }).1
      (Or.inr (by decide))
  · exact (c3_breadcrumb_policy c3OffState c3ClientSpan { statusCode := 200 }).1
      (Or.inl rfl)
  · have h := (c3_breadcrumb_policy c3OnState c3ClientSpan { statusCode := 200 }).2 rfl rfl
    rw [h]
    decide

/-! ### Claim C2 -/

/-- The CLIENT span of the C2 end-to-end scenario. -/
def c2Span : OtelSpan :=
  { kind := SpanKind.client,
    attributes :=
      [(SemanticAttributes.HTTP_URL, AttrValue.str "http://api.example.com/path?x=1#frag")],
    spanId := "b" }

/-- The configuration of the C2 end-to-end scenario: breadcrumbs on, tracing
on. -/
def c2Config : HttpOptions :=
  { breadcrumbs := some true, tracing := some (TracingSetting.asBool true) }

/-- C2 counterexample: in the claimed scenario the emitted breadcrumb keeps
the leading question mark and hash sign on the query and fragment values, so
its data is not the claimed record with the delimiters stripped. -/
theorem c2_breadcrumb_delimiters_kept :
    (_addRequestBreadcrumb (setupOnce (Http.construct c2Config) false none) c2Span
        { statusCode := 200 }).2 =
      some { category := "http", type := "http",
             data := { status_code := 200, url := "http://api.example.com/path?x=1#frag",
                       query := some "?x=1", fragment := some "#frag" } } ∧
    decide ((_addRequestBreadcrumb (setupOnce (Http.construct c2Config) false none) c2Span
        { statusCode := 200 }).2 =
      some { category := "http", type := "http",
             data := { status_code := 200, url := "http://api.example.com/path?x=1#frag",
                       query := some "x=1", fragment := some "frag" } }) = false :=
  ⟨by decide, by decide⟩

/-- C2 (amended): with configuration breadcrumbs on and tracing on, a CLIENT
span for url http://api.example.com/path?x=1#frag and response status 200
produce one breadcrumb with data status_code 200, the full url, and query and
fragment values that keep their leading delimiters: http.query is the string
question-mark x=1 and http.fragment the string hash frag.  This holds for
every ambient tracing flag and every client-level predicate seen at setup. -/
theorem c2_breadcrumb_scenario (hasTracingEnabled : Bool)
    (clientPred : Option (String → Bool)) :
    (_addRequestBreadcrumb (setupOnce (Http.construct c2Config) hasTracingEnabled clientPred)
        c2Span { statusCode := 200 }).2 =
      some { category := "http", type := "http",
             data := { status_code := 200, url := "http://api.example.com/path?x=1#frag",
                       query := some "?x=1", fragment := some "#frag" } } := by
  rfl

/-! ### Claim C7 -/

/-- C7: when the Sentry-span lookup finds nothing for the spans id,
_updateSentrySpan changes neither the instance state nor any Sentry span and
returns without error. -/
theorem c7_missing_sentry_span_noop (st : HttpState) (lookup : String → Option SentrySpan)
    (span : OtelSpan) (request : HttpRequest)
    (h : lookup span.spanId = none) :
    _updateSentrySpan st lookup span request = (st, none) := by
  unfold _updateSentrySpan
  rw [h]

/-- Instance state for the C7 witness. -/
def c7State : HttpState :=
  { _breadcrumbs := true, _tracing := none, _shouldCreateSpans := false,
    _shouldCreateSpanForRequest := none }

/-- Span for the C7 witness. -/
def c7Span : OtelSpan :=
  { kind := SpanKind.server,
    attributes := [(SemanticAttributes.HTTP_URL, AttrValue.str "http://h/p")],
    spanId := "nf" }

/-- Witness for C7 with a lookup that finds no Sentry span. -/
theorem c7_missing_sentry_span_noop_witness :
    _updateSentrySpan c7State (fun _ => none) c7Span { method := some "GET" } =
      (c7State, none) :=
  c7_missing_sentry_span_noop c7State (fun _ => none) c7Span { method := some "GET" } rfl

/-! ### Claim C8 -/

/-- C8: the incoming ignore hook returns true exactly when the uppercased
method is OPTIONS or HEAD, and the outgoing ignore hook returns the
Sentry-endpoint check on an extracted (non-empty) url and false when no url
is extracted. -/
theorem c8_ignore_hooks (request : HttpRequest) (isSentryRequestUrl : String → Bool)
    (url : Option String) :
    (ignoreIncomingRequestHook request = true ↔
      (Option.map strToUpper request.method = some "OPTIONS" ∨
        Option.map strToUpper request.method = some "HEAD")) ∧
    (∀ u, url = some u → u ≠ "" →
      ignoreOutgoingRequestHook isSentryRequestUrl url = isSentryRequestUrl u) ∧
    ignoreOutgoingRequestHook isSentryRequestUrl none = false := by
  refine ⟨?_, ?_, rfl⟩
  · cases hm : request.method with
    | none => simp [ignoreIncomingRequestHook, hm]
    | some m =>
      by_cases hc : strToUpper m = "OPTIONS" ∨ strToUpper m = "HEAD" <;>
        simp [ignoreIncomingRequestHook, hm, hc]
  · intro u hu hne
    subst hu
    simp [ignoreOutgoingRequestHook, hne]

/-- The Sentry-endpoint check used in the C8 witness. -/
def c8IsSentry : String → Bool :=
  fun u => u == "https://o1.ingest.sentry.io/api/1/envelope/"

/-- Witness for C8: a lowercase options request is ignored, an outgoing
request to the Sentry endpoint is ignored, and a missing url is not. -/
theorem c8_ignore_hooks_witness :
    ignoreIncomingRequestHook { method := some "options" } = true ∧
    ignoreOutgoingRequestHook c8IsSentry (some "https://o1.ingest.sentry.io/api/1/envelope/") =
      true ∧
    ignoreOutgoingRequestHook c8IsSentry none = false := by
  refine ⟨?_, ?_, ?_⟩
  · exact (c8_ignore_hooks { method := some "options" } c8IsSentry none).1.mpr
      (Or.inl (by decide))
  · have h := (c8_ignore_hooks { method := some "options" } c8IsSentry
      (some "https://o1.ingest.sentry.io/api/1/envelope/")).2.1
      "https://o1.ingest.sentry.io/api/1/envelope/" rfl (by decide)
    rw [h]
    decide
  · exact (c8_ignore_hooks { method := none } c8IsSentry none).2.2

theorem lookupAttr_foldl_skip (X Y : List (String × AttrValue))
    (d : List (String × AttrValue)) (k : String) (h : ∀ kv ∈ Y, kv.1 ≠ k) :
    lookupAttr ((X ++ Y).foldl (fun d2 kv => setKey d2 kv.1 kv.2) d) k =
      lookupAttr (X.foldl (fun d2 kv => setKey d2 kv.1 kv.2) d) k := by
  rw [List.foldl_append, lookupAttr_foldl_not_mem _ _ _ h]

theorem lookupAttr_foldl_hit (X : List (String × AttrValue))
    (d : List (String × AttrValue)) (k : String) (v : AttrValue) :
    lookupAttr ((X ++ [(k, v)]).foldl (fun d2 kv => setKey d2 kv.1 kv.2) d) k = some v := by
  rw [List.foldl_append, List.foldl_cons, List.foldl_nil, lookupAttr_setKey, if_pos rfl]

theorem statusPart_key (attributes : List (String × AttrValue)) (kv : String × AttrValue)
    (h : kv ∈ statusPart attributes) : kv.1 = "http.response.status_code" := by
  unfold statusPart at h
  split at h
  · split_ifs at h <;> simp_all
  · simp_all

theorem queryPart_key (attributes : List (String × AttrValue)) (kv : String × AttrValue)
    (h : kv ∈ queryPart attributes) : kv.1 = "http.query" := by
  unfold queryPart at h
  split at h
  · split_ifs at h <;> simp_all
  · simp_all

theorem fragmentPart_key (attributes : List (String × AttrValue)) (kv : String × AttrValue)
    (h : kv ∈ fragmentPart attributes) : kv.1 = "http.fragment" := by
  unfold fragmentPart at h
  split at h
  · split_ifs at h <;> simp_all
  · simp_all

theorem statusPart_eq (attributes : List (String × AttrValue)) (v : AttrValue)
    (hs : lookupAttr attributes SemanticAttributes.HTTP_STATUS_CODE = some v)
    (hv : truthy v = true) :
    statusPart attributes = [("http.response.status_code", v)] := by
  unfold statusPart
  rw [hs]
  simp [hv]

theorem queryPart_eq (attributes : List (String × AttrValue)) (q : String)
    (hq : (getRequestSpanData attributes).query = some q)
    (hv : truthy (AttrValue.str q) = true) :
    queryPart attributes = [("http.query", AttrValue.str (String.drop q 1))] := by
  unfold queryPart
  rw [hq]
  simp [hv]

theorem fragmentPart_eq (attributes : List (String × AttrValue)) (f : String)
    (hf : (getRequestSpanData attributes).fragment = some f)
    (hv : truthy (AttrValue.str f) = true) :
    fragmentPart attributes = [("http.fragment", AttrValue.str (String.drop f 1))] := by
  unfold fragmentPart
  rw [hf]
  simp [hv]

theorem fragmentPart_eq_nil (attributes : List (String × AttrValue))
    (hf : (getRequestSpanData attributes).fragment = none) :
    fragmentPart attributes = [] := by
  unfold fragmentPart
  rw [hf]

/-! ### Claim C4 -/

/-- C4: when a Sentry span is found, a non-empty derived query is stored in
span data under http.query with its first character removed, likewise the
fragment under http.fragment, and when the derived record has no fragment the
http.fragment data entry is left exactly as it was on the found span (no
write happens). -/
theorem c4_query_fragment_stripping (st : HttpState) (lookup : String → Option SentrySpan)
    (span : OtelSpan) (request : HttpRequest) (found : SentrySpan)
    (h : lookup span.spanId = some found) :
    (∀ q, (getRequestSpanData span.attributes).query = some q → q ≠ "" →
      spanDataLookup (_updateSentrySpan st lookup span request).2 "http.query" =
        some (AttrValue.str (String.drop q 1))) ∧
    (∀ f, (getRequestSpanData span.attributes).fragment = some f → f ≠ "" →
      spanDataLookup (_updateSentrySpan st lookup span request).2 "http.fragment" =
        some (AttrValue.str (String.drop f 1))) ∧
    ((getRequestSpanData span.attributes).fragment = none →
      spanDataLookup (_updateSentrySpan st lookup span request).2 "http.fragment" =
        lookupAttr found.data "http.fragment") := by
  refine ⟨?_, ?_, ?_⟩
  · intro q hq hne
    have ht : truthy (AttrValue.str q) = true := by simp [truthy, hne]
    rw [updateSentrySpan_data_char st lookup span request found h]
    unfold additionalDataList
    rw [queryPart_eq span.attributes q hq ht,
      lookupAttr_foldl_skip _ _ _ _
        (fun kv hkv => by rw [fragmentPart_key span.attributes kv hkv]; decide),
      lookupAttr_foldl_hit]
  · intro f hf hne
    have ht : truthy (AttrValue.str f) = true := by simp [truthy, hne]
    rw [updateSentrySpan_data_char st lookup span request found h]
    unfold additionalDataList
    rw [fragmentPart_eq span.attributes f hf ht, lookupAttr_foldl_hit]
  · intro hf
    rw [updateSentrySpan_data_char st lookup span request found h]
    unfold additionalDataList
    rw [fragmentPart_eq_nil span.attributes hf, List.append_nil,
      lookupAttr_foldl_skip _ _ _ _
        (fun kv hkv => by rw [queryPart_key span.attributes kv hkv]; decide),
      lookupAttr_foldl_skip _ _ _ _
        (fun kv hkv => by rw [statusPart_key span.attributes kv hkv]; decide),
      List.foldl_cons, List.foldl_nil]
    dsimp only
    rw [lookupAttr_setKey, if_neg (by decide)]

/-- Empty Sentry span found by the lookup in the C4 witness. -/
def c4Found : SentrySpan :=
  { origin := none, isTransaction := false, metadata := none, tags := [], data := [] }

/-- Instance state for the C4 witness. -/
def c4State : HttpState :=
  { _breadcrumbs := true, _tracing := none, _shouldCreateSpans := false,
    _shouldCreateSpanForRequest := none }

/-- Span with query and fragment for the C4 witness. -/
def c4Span : OtelSpan :=
  { kind := SpanKind.client,
    attributes := [(SemanticAttributes.HTTP_URL, AttrValue.str "http://h/p?a=1#fr")],
    spanId := "g" }

/-- Span without fragment for the C4 witness. -/
def c4SpanNoFrag : OtelSpan :=
  { kind := SpanKind.client,
    attributes := [(SemanticAttributes.HTTP_URL, AttrValue.str "http://h/p?a=1")],
    spanId := "g2" }

/-- Witness for C4: query and fragment of url http://h/p?a=1#fr are stored
stripped, and with no fragment in the url nothing is stored under
http.fragment. -/
theorem c4_query_fragment_stripping_witness :
    spanDataLookup
        (_updateSentrySpan c4State (fun _ => some c4Found) c4Span { method := none }).2
        "http.query" = some (AttrValue.str "a=1") ∧
    spanDataLookup
        (_updateSentrySpan c4State (fun _ => some c4Found) c4Span { method := none }).2
        "http.fragment" = some (AttrValue.str "fr") ∧
    spanDataLookup
        (_updateSentrySpan c4State (fun _ => some c4Found) c4SpanNoFrag { method := none }).2
        "http.fragment" = none := by
  refine ⟨?_, ?_, ?_⟩
  · have h1 := (c4_query_fragment_stripping c4State (fun _ => some c4Found) c4Span
      { method := none } c4Found rfl).1 "?a=1" (by decide) (by decide)
    rw [h1]
    decide
  · have h2 := (c4_query_fragment_stripping c4State (fun _ => some c4Found) c4Span
      { method := none } c4Found rfl).2.1 "#fr" (by decide) (by decide)
    rw [h2]
    decide
  · have h3 := (c4_query_fragment_stripping c4State (fun _ => some c4Found) c4SpanNoFrag
      { method := none } c4Found rfl).2.2 (by decide)
    rw [h3]
    rfl

/-! ### Claim C5 -/

/-- Empty Sentry span found by the lookup in the C5 counterexample. -/
def c5Found : SentrySpan :=
  { origin := none, isTransaction := false, metadata := none, tags := [], data := [] }

/-- Instance state used around the C5 counterexample and witness. -/
def c5State : HttpState :=
  { _breadcrumbs := true, _tracing := none, _shouldCreateSpans := false,
    _shouldCreateSpanForRequest := none }

/-- Span whose status-code attribute is present but is the falsy number 0,
for the C5 counterexample. -/
def c5Span : OtelSpan :=
  { kind := SpanKind.client,
    attributes := [(SemanticAttributes.HTTP_STATUS_CODE, AttrValue.int 0),
      (SemanticAttributes.HTTP_URL, AttrValue.str "http://h/p")],
    spanId := "f" }

/-- C5 counterexample: the status-code attribute is present (with the falsy
value 0) and a Sentry span is found, yet _updateSentrySpan writes neither the
http.response.status_code data entry nor the http.status_code tag, because
the code tests the attribute for truthiness rather than presence. -/
theorem c5_falsy_status_not_written :
    lookupAttr c5Span.attributes SemanticAttributes.HTTP_STATUS_CODE =
      some (AttrValue.int 0) ∧
    (fun _ => some c5Found : String → Option SentrySpan) c5Span.spanId = some c5Found ∧
    (_updateSentrySpan c5State (fun _ => some c5Found) c5Span { method := none }).2 =
      some { origin := some "auto.http.otel.http", isTransaction := false,
             metadata := none, tags := [],
             data := [("url", AttrValue.str "http://h/p")] } ∧
    spanTagLookup (_updateSentrySpan c5State (fun _ => some c5Found) c5Span
        { method := none }).2 "http.status_code" = none ∧
    spanDataLookup (_updateSentrySpan c5State (fun _ => some c5Found) c5Span
        { method := none }).2 "http.response.status_code" = none :=
  ⟨by decide, rfl, by decide, by decide, by decide⟩

/-- C5 (amended): when a Sentry span is found and the status-code attribute
is present and truthy, its value is written both to span data under
http.response.status_code and as the tag http.status_code; when the
attribute is absent or falsy, both stores are left exactly as they were on
the found span. -/
theorem c5_status_code_enrichment (st : HttpState) (lookup : String → Option SentrySpan)
    (span : OtelSpan) (request : HttpRequest) (found : SentrySpan)
    (h : lookup span.spanId = some found) :
    (∀ v, lookupAttr span.attributes SemanticAttributes.HTTP_STATUS_CODE = some v →
      truthy v = true →
      spanDataLookup (_updateSentrySpan st lookup span request).2
          "http.response.status_code" = some v ∧
      spanTagLookup (_updateSentrySpan st lookup span request).2
          "http.status_code" = some v) ∧
    ((∀ v, lookupAttr span.attributes SemanticAttributes.HTTP_STATUS_CODE = some v →
        truthy v = false) →
      spanDataLookup (_updateSentrySpan st lookup span request).2
          "http.response.status_code" = lookupAttr found.data "http.response.status_code" ∧
      spanTagLookup (_updateSentrySpan st lookup span request).2
          "http.status_code" = lookupAttr found.tags "http.status_code") := by
  constructor
  · intro v hs hv
    constructor
    · rw [updateSentrySpan_data_char st lookup span request found h]
      unfold additionalDataList
      rw [statusPart_eq span.attributes v hs hv,
        lookupAttr_foldl_skip _ _ _ _
          (fun kv hkv => by rw [fragmentPart_key span.attributes kv hkv]; decide),
        lookupAttr_foldl_skip _ _ _ _
          (fun kv hkv => by rw [queryPart_key span.attributes kv hkv]; decide),
        lookupAttr_foldl_hit]
    · rw [updateSentrySpan_tags_char st lookup span request found h, hs]
      simp [hv, lookupAttr_setKey]
  · intro hfalsy
    have hnil : statusPart span.attributes = [] := by
      unfold statusPart
      cases hs : lookupAttr span.attributes SemanticAttributes.HTTP_STATUS_CODE with
      | none => rfl
      | some v => simp [hfalsy v hs]
    constructor
    · rw [updateSentrySpan_data_char st lookup span request found h]
      unfold additionalDataList
      rw [hnil, List.append_nil,
        lookupAttr_foldl_skip _ _ _ _
          (fun kv hkv => by rw [fragmentPart_key span.attributes kv hkv]; decide),
        lookupAttr_foldl_skip _ _ _ _
          (fun kv hkv => by rw [queryPart_key span.attributes kv hkv]; decide),
        List.foldl_cons, List.foldl_nil]
      dsimp only
      rw [lookupAttr_setKey, if_neg (by decide)]
    · rw [updateSentrySpan_tags_char st lookup span request found h]
      cases hs : lookupAttr span.attributes SemanticAttributes.HTTP_STATUS_CODE with
      | none => rfl
      | some v => simp [hfalsy v hs]

/-- Span with a truthy status-code attribute for the C5 witness. -/
def c5wSpan : OtelSpan :=
  { kind := SpanKind.client,
    attributes := [(SemanticAttributes.HTTP_STATUS_CODE, AttrValue.int 200),
      (SemanticAttributes.HTTP_URL, AttrValue.str "http://h/p")],
    spanId := "w" }

/-- Witness for the amended C5 at status code 200. -/
theorem c5_status_code_enrichment_witness :
    spanDataLookup (_updateSentrySpan c5State (fun _ => some c5Found) c5wSpan
        { method := none }).2 "http.response.status_code" = some (AttrValue.int 200) ∧
    spanTagLookup (_updateSentrySpan c5State (fun _ => some c5Found) c5wSpan
        { method := none }).2 "http.status_code" = some (AttrValue.int 200) :=
  (c5_status_code_enrichment c5State (fun _ => some c5Found) c5wSpan { method := none }
      c5Found rfl).1 (AttrValue.int 200) (by decide) (by decide)

/-! ### Claim C6 -/

theorem setupOnce_shouldCreateSpans (st : HttpState) (hasTracingEnabled : Bool)
    (clientPred : Option (String → Bool)) (h0 : st._shouldCreateSpans = false) :
    (setupOnce st hasTracingEnabled clientPred)._shouldCreateSpans =
      (match st._tracing with
       | none => hasTracingEnabled
       | some b => b) := by
  unfold setupOnce
  split
  · next hc =>
    rw [hc.2]
    exact h0
  · rfl

theorem onSpanEnd_preserves_state (st : HttpState) (otelSpan : OtelSpan) (drop : Bool) :
    (_onSpanEnd st otelSpan drop).1 = st := by
  unfold _onSpanEnd
  repeat' split
  all_goals rfl

theorem updateSentrySpan_preserves_state (st : HttpState)
    (lookup : String → Option SentrySpan) (span : OtelSpan) (request : HttpRequest) :
    (_updateSentrySpan st lookup span request).1 = st := by
  unfold _updateSentrySpan
  repeat' split
  all_goals rfl

theorem addRequestBreadcrumb_preserves_state (st : HttpState) (span : OtelSpan)
    (response : HttpResponse) :
    (_addRequestBreadcrumb st span response).1 = st := by
  unfold _addRequestBreadcrumb
  repeat' split
  all_goals rfl

/-- C6: after setup on a freshly constructed instance, the cached
_shouldCreateSpans flag equals the explicit tracing boolean when one was
configured and the ambient hasTracingEnabled check only when the tracing mode
was undefined; and none of the three callbacks changes the instance state, so
every span-end decision reads the same cached flag and the same predicate
reference. -/
theorem c6_setup_caches_decision (options : HttpOptions) (hasTracingEnabled : Bool)
    (clientPred : Option (String → Bool)) (otelSpan : OtelSpan) (drop : Bool)
    (lookup : String → Option SentrySpan) (request : HttpRequest)
    (response : HttpResponse) :
    (setupOnce (Http.construct options) hasTracingEnabled clientPred)._shouldCreateSpans =
      (match (Http.construct options)._tracing with
       | none => hasTracingEnabled
       | some b => b) ∧
    (_onSpanEnd (setupOnce (Http.construct options) hasTracingEnabled clientPred)
        otelSpan drop).1 =
      setupOnce (Http.construct options) hasTracingEnabled clientPred ∧
    (_updateSentrySpan (setupOnce (Http.construct options) hasTracingEnabled clientPred)
        lookup otelSpan request).1 =
      setupOnce (Http.construct options) hasTracingEnabled clientPred ∧
    (_addRequestBreadcrumb (setupOnce (Http.construct options) hasTracingEnabled clientPred)
        otelSpan response).1 =
      setupOnce (Http.construct options) hasTracingEnabled clientPred :=
  ⟨setupOnce_shouldCreateSpans _ _ _ rfl,
    onSpanEnd_preserves_state _ _ _,
    updateSentrySpan_preserves_state _ _ _ _,
    addRequestBreadcrumb_preserves_state _ _ _⟩

/-! ### Claim C10 -/

/-- Options record with an object-valued tracing setting, as used by C10. -/
def c10Options (bc : Option Bool) (p : Option (String → Bool)) : HttpOptions :=
  { breadcrumbs := bc, tracing := some (TracingSetting.asObject p) }

/-- C10: when the tracing option is given as an object (any object, with or
without a predicate), the constructor coerces the stored tracing mode to
true; after setup the resolved flag is true regardless of the ambient check,
and _onSpanEnd never takes the tracing-disabled drop branch — its result is
exactly the url-filter decision. -/
theorem c10_object_tracing_enables (p : Option (String → Bool)) (bc : Option Bool)
    (hasTracingEnabled : Bool) (clientPred : Option (String → Bool))
    (otelSpan : OtelSpan) (drop : Bool) :
    (Http.construct (c10Options bc p))._tracing = some true ∧
    (setupOnce (Http.construct (c10Options bc p)) hasTracingEnabled
        clientPred)._shouldCreateSpans = true ∧
    (_onSpanEnd (setupOnce (Http.construct (c10Options bc p)) hasTracingEnabled clientPred)
        otelSpan drop).2 =
      (match (setupOnce (Http.construct (c10Options bc p)) hasTracingEnabled
           clientPred)._shouldCreateSpanForRequest with
       | some pred =>
         (match getHttpUrl otelSpan.attributes with
          | some url => if url ≠ "" ∧ pred url = false then true else drop
          | none => drop)
       | none => drop) := by
  have h2 : (setupOnce (Http.construct (c10Options bc p)) hasTracingEnabled
      clientPred)._shouldCreateSpans = true := by
    rw [setupOnce_shouldCreateSpans _ _ _ rfl]
    rfl
  refine ⟨rfl, h2, ?_⟩
  unfold _onSpanEnd
  rw [if_neg (by simp [h2])]
  cases hp : (setupOnce (Http.construct (c10Options bc p)) hasTracingEnabled
      clientPred)._shouldCreateSpanForRequest with
  | none => rfl
  | some pred =>
    cases hu : getHttpUrl otelSpan.attributes with
    | none => rfl
    | some url =>
      dsimp only
      split <;> rfl
